import Mathlib

/-
Verification of the shared-state hub subsystem of the @d3vtool/hooks
repository (Hub / ComputedHub / PromiseHub), shallowly embedded in Lean.

Listeners and change callbacks are identified by natural-number ids; JS
`Set` objects (insertion-ordered, unique elements) are modelled as
duplicate-free `List Nat` values with insertion-order add and erase.
State-mutating operations return the new object together with the list
of notification events they emit, in emission order; an operation that
notifies nobody returns the empty event list.  The host language is
single-threaded, so a synchronous call's complete effect is exactly the
returned state and event trace.
-/

namespace HooksSpec

/-- JS `Set.prototype.add`: appends the element unless it is already present. -/
def jsSetAdd (xs : List Nat) (x : Nat) : List Nat :=
  if x ∈ xs then xs else xs ++ [x]

/-- JS `Set.prototype.delete`: removes the element if present. -/
def jsSetDelete (xs : List Nat) (x : Nat) : List Nat :=
  xs.erase x

/-- Notification events emitted by a `Hub`: a state listener invoked with the
new value, or a zero-argument change callback invoked. -/
inductive HubEvent (T : Type) where
  | listenerCall (id : Nat) (v : T)
  | changeCall (id : Nat)
deriving DecidableEq

/-- The `Hub<T>` class (Hub.ts): a current state, a `Set` of state listeners
and a `Set` of on-change callbacks. -/
structure Hub (T : Type) where
  currentState : T
  onChangeListeners : List Nat
  listeners : List Nat
deriving DecidableEq

/-- The `T | InitializerAction<T>` argument of `createHub`: either a plain
value or a thunk producing one. -/
inductive InitArg (T : Type) where
  | value (v : T)
  | initFn (g : Unit → T)

/-- Hub.ts `getCurrentState()`: returns `currentState`, no side effect. -/
def Hub.getCurrentState {T : Type} (h : Hub T) : T :=
  h.currentState

/-- Hub.ts `setCurrentState(newState)`: assigns `currentState` and does
nothing else — the empty event list records that no listener and no change
callback is invoked on this path. -/
def Hub.setCurrentState {T : Type} (h : Hub T) (newState : T) :
    Hub T × List (HubEvent T) :=
  ({ h with currentState := newState }, [])

/-- Hub.ts `attachListener(listener)`: `this.listeners.add(listener)`. -/
def Hub.attachListener {T : Type} (h : Hub T) (listener : Nat) : Hub T :=
  { h with listeners := jsSetAdd h.listeners listener }

/-- Hub.ts `removeListener(listener)`: `this.listeners.delete(listener)`. -/
def Hub.removeListener {T : Type} (h : Hub T) (listener : Nat) : Hub T :=
  { h with listeners := jsSetDelete h.listeners listener }

/-- Hub.ts `notifyListener(newState)`: invokes every state listener with the
new state, then every on-change callback.  It only iterates the two sets; it
does not write `currentState`, so the hub itself is unchanged and the result
is the emitted event trace. -/
def Hub.notifyListener {T : Type} (h : Hub T) (newState : T) :
    List (HubEvent T) :=
  h.listeners.map (fun l => HubEvent.listenerCall l newState) ++
    h.onChangeListeners.map (fun c => HubEvent.changeCall c)

/-- Hub.ts `onChange(callback)`: `this.onChangeListeners.add(callback)`. -/
def Hub.onChange {T : Type} (h : Hub T) (callback : Nat) : Hub T :=
  { h with onChangeListeners := jsSetAdd h.onChangeListeners callback }

/-- Hub.ts `removeOnChange(callback)`: the body is
`this.onChangeListeners.add(callback)` — it calls `add`, not `delete`. -/
def Hub.removeOnChange {T : Type} (h : Hub T) (callback : Nat) : Hub T :=
  { h with onChangeListeners := jsSetAdd h.onChangeListeners callback }

/-- Hub.ts `createHub(initialState)`: resolves an initializer thunk by calling
it once, then constructs a hub with empty listener sets. -/
def createHub {T : Type} : InitArg T → Hub T
  | InitArg.value v => { currentState := v, onChangeListeners := [], listeners := [] }
  | InitArg.initFn g => { currentState := g (), onChangeListeners := [], listeners := [] }

/-- The `T | PrevStateAction<T>` argument of useHub's `updateState`: a plain
value or a functional updater applied to the previous state. -/
inductive NewStateArg (T : Type) where
  | value (v : T)
  | func (g : T → T)

/-- The `newState instanceof Function ? newState(hub.getCurrentState()) :
newState` resolution step of useHub.ts `updateState`. -/
def resolveNewState {T : Type} (u : NewStateArg T) (prev : T) : T :=
  match u with
  | NewStateArg.value v => v
  | NewStateArg.func g => g prev

/-- useHub.ts `updateState` (lines 54-59): resolves the updater against
`hub.getCurrentState()` and then calls `hub.notifyListener(nState)`.  No
other hub method is called, so the hub object is returned as it was and the
events are exactly those of `notifyListener`. -/
def updateState {T : Type} (hub : Hub T) (newState : NewStateArg T) :
    Hub T × List (HubEvent T) :=
  (hub, hub.notifyListener (resolveNewState newState hub.getCurrentState))

/-- The member names defined by the `Hub` class body in Hub.ts (besides the
constructor). -/
def hubMethodNames : List String :=
  ["getCurrentState", "setCurrentState", "attachListener", "removeListener",
   "notifyListener", "onChange", "removeOnChange"]

/-- JS property lookup for the listener-set mutation members of `Hub`: the
class defines `attachListener` and `removeListener`; looking up any other
name yields `undefined` (`none`). -/
def hubListenerMethodLookup (T : Type) (name : String) :
    Option (Hub T → Nat → Hub T) :=
  if name = "attachListener" then some Hub.attachListener
  else if name = "removeListener" then some Hub.removeListener
  else none

/-- The cleanup function returned by the effect in useHub.ts `useHub` (lines
49-51) and `useReadHub` (lines 87-89): it evaluates
`hub.detachListener(setState)`.  Property lookup of `detachListener` on the
hub yields `undefined`, and calling `undefined` throws a `TypeError` before
any mutation happens; the boolean records whether a `TypeError` was thrown. -/
def useHubCleanup {T : Type} (hub : Hub T) (setStateId : Nat) :
    Hub T × Bool :=
  match hubListenerMethodLookup T "detachListener" with
  | some f => (f hub setStateId, false)
  | none => (hub, true)

/-- A source hub paired with the computed hub `createComputedHub` builds on
top of it.  The recompute closure registered by `hub.onChange(...)` in
Hub.ts (lines 109-113) is represented structurally: it is the one change
callback of the source, and running it is `handleSourceChange` below. -/
structure ComputedPair (T : Type) where
  src : Hub T
  comp : Hub T
  computeAction : T → T

/-- Hub.ts `createComputedHub(hub, computeAction)` (lines 106-116): creates
`new Hub(computeAction(hub.getCurrentState()))` and registers the recompute
closure on the source via `hub.onChange`. -/
def createComputedHub {T : Type} (hub : Hub T) (computeAction : T → T) :
    ComputedPair T :=
  { src := hub
    comp := { currentState := computeAction hub.getCurrentState
              onChangeListeners := []
              listeners := [] }
    computeAction := computeAction }

/-- The closure passed to `hub.onChange` by `createComputedHub`: reads the
source's current state, applies `computeAction`, and calls
`computeHub.notifyListener(newComputedState)` — which emits the computed
hub's notifications but writes nothing. -/
def ComputedPair.handleSourceChange {T : Type} (p : ComputedPair T) :
    ComputedPair T × List (HubEvent T) :=
  (p, p.comp.notifyListener (p.computeAction p.src.getCurrentState))

/-- The source-hub update path of a computed pair, as executed when useHub's
`updateState` runs on the source: resolve the new value, run the source's
`notifyListener` (state listeners first, then the change callbacks — here
the single recompute closure registered by `createComputedHub`), all within
the one synchronous call. -/
def ComputedPair.updateState {T : Type} (p : ComputedPair T)
    (newState : NewStateArg T) : ComputedPair T × List (HubEvent T) :=
  let nState := resolveNewState newState p.src.getCurrentState
  let srcEvents := p.src.listeners.map (fun l => HubEvent.listenerCall l nState)
  let (p2, compEvents) := p.handleSourceChange
  (p2, srcEvents ++ compEvents)

/-- The `PromiseHubType<R, E>` record of index.ts: the composite
`{ currentState, pending, error }` snapshot delivered to listeners.
`PromiseHubError<E> = E | null` is `Option E`. -/
structure PromiseHubType (R E : Type) where
  currentState : R
  pending : Bool
  error : Option E
deriving DecidableEq

/-- Notification events emitted by a `PromiseHub`: a listener invoked with a
fresh snapshot of the composite state, or an on-change callback invoked. -/
inductive PromiseEvent (R E : Type) where
  | notify (id : Nat) (st : PromiseHubType R E)
  | changeCall (id : Nat)
deriving DecidableEq

/-- The `PromiseHub<R, E>` class of index.ts: the composite state plus a
`Set` of listeners and a `Set` of on-change callbacks.  The `promiseAction`
field is fixed at construction; in this embedding it is passed to `reAction`
explicitly, as a total function whose `Except` result stands for the settled
outcome (`ok` = resolution, `error` = rejection) of the awaited promise. -/
structure PromiseHub (R E : Type) where
  promiseState : PromiseHubType R E
  onChangeListeners : List Nat
  listeners : List Nat
deriving DecidableEq

/-- index.ts `createPromiseHub(initialState, promiseAction)`: resolves an
initializer thunk, then constructs the hub with
`{ error: null, pending: false, currentState: initialState }`. -/
def createPromiseHub {R E : Type} : InitArg R → PromiseHub R E
  | InitArg.value v =>
      { promiseState := { currentState := v, pending := false, error := none }
        onChangeListeners := [], listeners := [] }
  | InitArg.initFn g =>
      { promiseState := { currentState := g (), pending := false, error := none }
        onChangeListeners := [], listeners := [] }

/-- index.ts `PromiseHub.attachListener`: `this.listeners.add(listener)`. -/
def PromiseHub.attachListener {R E : Type} (ph : PromiseHub R E)
    (listener : Nat) : PromiseHub R E :=
  { ph with listeners := jsSetAdd ph.listeners listener }

/-- index.ts `PromiseHub.detachListener`: `this.listeners.delete(listener)`. -/
def PromiseHub.detachListener {R E : Type} (ph : PromiseHub R E)
    (listener : Nat) : PromiseHub R E :=
  { ph with listeners := jsSetDelete ph.listeners listener }

/-- The notification round shared by the three `PromiseHub` setters: each
mutates `promiseState`, snapshots `{ ...this.promiseState }`, invokes every
listener with that snapshot, then every on-change callback.  This emits the
round for the hub's current (already-mutated) state. -/
def PromiseHub.notifyAll {R E : Type} (ph : PromiseHub R E) :
    List (PromiseEvent R E) :=
  ph.listeners.map (fun l => PromiseEvent.notify l ph.promiseState) ++
    ph.onChangeListeners.map (fun c => PromiseEvent.changeCall c)

/-- index.ts `getCurrentState()`. -/
def PromiseHub.getCurrentState {R E : Type} (ph : PromiseHub R E) : R :=
  ph.promiseState.currentState

/-- index.ts `getPendingState()`. -/
def PromiseHub.getPendingState {R E : Type} (ph : PromiseHub R E) : Bool :=
  ph.promiseState.pending

/-- index.ts `getErrorState()`. -/
def PromiseHub.getErrorState {R E : Type} (ph : PromiseHub R E) : Option E :=
  ph.promiseState.error

/-- index.ts `setCurrentState(newCurrentState)` (lines 425-434): writes
`currentState`, leaves `pending` and `error` untouched, then notifies with
the new snapshot. -/
def PromiseHub.setCurrentState {R E : Type} (ph : PromiseHub R E) (v : R) :
    PromiseHub R E × List (PromiseEvent R E) :=
  let ph2 : PromiseHub R E :=
    { ph with promiseState := { ph.promiseState with currentState := v } }
  (ph2, ph2.notifyAll)

/-- index.ts `setPendingState(pendingState)`: writes `pending`, leaves
`currentState` and `error` untouched, then notifies with the new snapshot. -/
def PromiseHub.setPendingState {R E : Type} (ph : PromiseHub R E) (b : Bool) :
    PromiseHub R E × List (PromiseEvent R E) :=
  let ph2 : PromiseHub R E :=
    { ph with promiseState := { ph.promiseState with pending := b } }
  (ph2, ph2.notifyAll)

/-- index.ts `setErrorState(error)`: writes `error`, leaves `currentState`
and `pending` untouched, then notifies with the new snapshot. -/
def PromiseHub.setErrorState {R E : Type} (ph : PromiseHub R E) (e : E) :
    PromiseHub R E × List (PromiseEvent R E) :=
  let ph2 : PromiseHub R E :=
    { ph with promiseState := { ph.promiseState with error := some e } }
  (ph2, ph2.notifyAll)

/-- index.ts `reAction()` (lines 395-406), for one non-overlapping call — the
`await` of the producer is the only suspension point, so the call is a
sequential composition: `setPendingState(true)`; invoke the action on
`getCurrentState()`; on resolution `setCurrentState(result)` and return the
result; on rejection catch the error and `setErrorState(err)` (no return, so
the caller receives `undefined`, modelled `none`); in both cases `finally`
runs `setPendingState(false)` before the call settles.  The result is the
final hub, the full emission-ordered event trace, and the value the returned
promise resolves with. -/
def PromiseHub.reAction {R E : Type} (ph : PromiseHub R E)
    (promiseAction : R → Except E R) :
    PromiseHub R E × List (PromiseEvent R E) × Option R :=
  let (ph1, ev1) := ph.setPendingState true
  match promiseAction ph1.getCurrentState with
  | Except.ok result =>
      let (ph2, ev2) := ph1.setCurrentState result
      let (ph3, ev3) := ph2.setPendingState false
      (ph3, ev1 ++ ev2 ++ ev3, some result)
  | Except.error err =>
      let (ph2, ev2) := ph1.setErrorState err
      let (ph3, ev3) := ph2.setPendingState false
      (ph3, ev1 ++ ev2 ++ ev3, none)

/-- The sequence of snapshots a given listener receives from an event trace,
in order. -/
def observedBy {R E : Type} (l : Nat) (trace : List (PromiseEvent R E)) :
    List (PromiseHubType R E) :=
  trace.filterMap fun e =>
    match e with
    | PromiseEvent.notify i st => if i = l then some st else none
    | PromiseEvent.changeCall _ => none

/- Helper lemmas about the JS-set model and event traces. -/

theorem jsSetAdd_self_mem (xs : List Nat) (x : Nat) : x ∈ jsSetAdd xs x := by
  unfold jsSetAdd
  split
  · assumption
  · simp

theorem jsSetAdd_nodup {xs : List Nat} (hnd : xs.Nodup) (x : Nat) :
    (jsSetAdd xs x).Nodup := by
  unfold jsSetAdd
  split
  · exact hnd
  · rename_i hx
    simp [List.nodup_append, hnd, hx]

theorem jsSetAdd_idem (xs : List Nat) (x : Nat) :
    jsSetAdd (jsSetAdd xs x) x = jsSetAdd xs x := by
  unfold jsSetAdd
  split
  · simp [*]
  · simp

theorem listenerCall_injective {T : Type} (v : T) :
    Function.Injective (fun l => HubEvent.listenerCall l v) := by
  intro a b hab
  simpa using hab

theorem count_listenerCall_notify {T : Type} [DecidableEq T] (h : Hub T)
    (l : Nat) (v : T) :
    (h.notifyListener v).count (HubEvent.listenerCall l v) =
      h.listeners.count l := by
  unfold Hub.notifyListener
  rw [List.count_append, List.count_map_of_injective _ _ (listenerCall_injective v)]
  have hz : (h.onChangeListeners.map (fun c => HubEvent.changeCall c)).count
      (HubEvent.listenerCall l v) = 0 := by
    rw [List.count_eq_zero]
    intro hmem
    rcases List.mem_map.mp hmem with ⟨c, _, hc⟩
    exact HubEvent.noConfusion hc
  omega

theorem observedBy_append {R E : Type} (l : Nat)
    (t1 t2 : List (PromiseEvent R E)) :
    observedBy l (t1 ++ t2) = observedBy l t1 ++ observedBy l t2 := by
  unfold observedBy
  exact List.filterMap_append t1 t2 _

theorem observedBy_notify_map {R E : Type} (l : Nat) (ids : List Nat)
    (st : PromiseHubType R E) :
    observedBy l (ids.map fun i => PromiseEvent.notify i st) =
      List.replicate (ids.count l) st := by
  induction ids with
  | nil => rfl
  | cons i ids ih =>
      by_cases hi : i = l
      · subst hi
        simp [observedBy, List.filterMap_cons, List.count_cons, List.replicate_succ] at ih ⊢
        exact ih
      · simp [observedBy, List.filterMap_cons, List.count_cons, hi, Ne.symm hi] at ih ⊢
        exact ih

theorem observedBy_change_map {R E : Type} (l : Nat) (ids : List Nat) :
    observedBy l (ids.map fun c => (PromiseEvent.changeCall c : PromiseEvent R E)) = [] := by
  induction ids with
  | nil => rfl
  | cons i ids ih =>
      simp only [List.map_cons, observedBy, List.filterMap_cons] at ih ⊢
      exact ih

theorem observedBy_notifyAll {R E : Type} (ph : PromiseHub R E) (l : Nat) :
    observedBy l ph.notifyAll =
      List.replicate (ph.listeners.count l) ph.promiseState := by
  unfold PromiseHub.notifyAll
  rw [observedBy_append, observedBy_notify_map, observedBy_change_map,
    List.append_nil]

/- Concrete instances used to evaluate the code on the claims' scenarios. -/

/-- A hub created with initial value `0` with listener `0` attached
(scenario 1 of the spec). -/
def hubC1 : Hub Nat := (createHub (InitArg.value 0)).attachListener 0

/-- A hub created with initial value `0` on which change callback `7` is
registered. -/
def hubC5 : Hub Nat := (createHub (InitArg.value 0)).onChange 7

/-- A source hub with value `2` and state listener `1` attached
(scenario 2 of the spec). -/
def srcC2 : Hub Nat := (createHub (InitArg.value 2)).attachListener 1

/-- The computed pair of scenario 2: derived hub doubling the source. -/
def pairC2 : ComputedPair Nat := createComputedHub srcC2 (fun s => s * 2)

/-- The same pair with listener `9` attached to the computed hub. -/
def pairC2L : ComputedPair Nat :=
  { pairC2 with comp := pairC2.comp.attachListener 9 }

/-- C1: the public update path (useHub's `updateState`, which resolves the
updater against the current state and calls `Hub.notifyListener`) notifies
the attached listener with the new value `5`, but it never writes
`currentState`: after updating the hub created with `0` to `5`, the listener
has been called with `5` while `getCurrentState()` still returns `0`, not
`5` — refuting the claim that the update replaces `currentState` before
notifying.  A second update with the functional updater `prev + 1` applied
twice still notifies `1` both times, because `prev` is read from the
never-written `currentState`. -/
theorem hub_update_does_not_write_state :
    (updateState hubC1 (NewStateArg.value 5)).2 = [HubEvent.listenerCall 0 5] ∧
    (updateState hubC1 (NewStateArg.value 5)).1.getCurrentState = 0 ∧
    (updateState hubC1 (NewStateArg.value 5)).1.getCurrentState ≠ 5 ∧
    (updateState (updateState hubC1 (NewStateArg.func (fun p => p + 1))).1
        (NewStateArg.func (fun p => p + 1))).2 =
      [HubEvent.listenerCall 0 1] := by
  refine ⟨rfl, rfl, by decide, rfl⟩

/-- C2: for the spec's scenario (source value `2`, compute action doubling),
the computed hub's initial state is `4`; after updating the source to `3`
the computed hub's `currentState` is still `4` (the stale initial derived
value), not `6`, because the recompute closure calls `notifyListener`, which
never writes state — and the source's own `currentState` is still `2`.  The
notification delivered to the computed hub's listener carries `4` as well,
since the recompute reads the source's never-updated `currentState`.  This
refutes the claim that after a source update the computed hub's state equals
the freshly derived value. -/
theorem computedHub_state_stays_stale :
    pairC2.comp.getCurrentState = 4 ∧
    (pairC2L.updateState (NewStateArg.value 3)).1.comp.getCurrentState = 4 ∧
    (pairC2L.updateState (NewStateArg.value 3)).1.comp.getCurrentState ≠ 6 ∧
    (pairC2L.updateState (NewStateArg.value 3)).1.src.getCurrentState = 2 ∧
    (pairC2L.updateState (NewStateArg.value 3)).2 =
      [HubEvent.listenerCall 1 3, HubEvent.listenerCall 9 4] := by
  refine ⟨rfl, rfl, by decide, rfl, rfl⟩

/-- C5: `Hub.removeOnChange` does not remove — its body calls
`onChangeListeners.add(callback)`.  After `onChange(7)` followed by
`removeOnChange(7)`, callback `7` is still registered and is invoked by the
next notification; worse, calling `removeOnChange(9)` on a hub that never
registered `9` adds `9` to the registry.  This refutes the claim that
`onChange`/`removeOnChange` form a symmetric add/remove pair after which the
callback is never invoked again. -/
theorem removeOnChange_adds_instead_of_removing :
    (hubC5.removeOnChange 7).onChangeListeners = [7] ∧
    ((hubC5.removeOnChange 7).notifyListener 1).count (HubEvent.changeCall 7) = 1 ∧
    (((createHub (InitArg.value 0) : Hub Nat)).removeOnChange 9).onChangeListeners = [9] := by
  refine ⟨rfl, by decide, rfl⟩

/-- C6: the `Hub` class defines no `detachListener` member — its only
listener-removal method is `removeListener` — so the cleanup functions of
`useHub` and `useReadHub`, which evaluate `hub.detachListener(setState)`,
look up an undefined property, throw a `TypeError` when calling it, and
leave the hub (hence the attached listener) unchanged. -/
theorem detachListener_undefined {T : Type} (h : Hub T) (l : Nat) :
    "detachListener" ∉ hubMethodNames ∧
    "removeListener" ∈ hubMethodNames ∧
    hubListenerMethodLookup T "detachListener" = none ∧
    useHubCleanup h l = (h, true) ∧
    (useHubCleanup (h.attachListener l) l).1 = h.attachListener l := by
  refine ⟨by decide, by decide, rfl, rfl, rfl⟩

/-- C10: `Hub.setCurrentState` is a silent write — it replaces
`currentState` with the new value, leaves both listener registries
untouched, and emits no notification event at all. -/
theorem setCurrentState_silent {T : Type} (h : Hub T) (v : T) :
    (h.setCurrentState v).1.getCurrentState = v ∧
    (h.setCurrentState v).2 = [] ∧
    (h.setCurrentState v).1.listeners = h.listeners ∧
    (h.setCurrentState v).1.onChangeListeners = h.onChangeListeners :=
  ⟨rfl, rfl, rfl, rfl⟩

/-- C7: `attachListener` has set semantics — attaching the same listener `l`
twice equals attaching it once; a notification after the double attach
invokes `l` exactly once with the new value; and after detaching once via
`removeListener`, `l` is gone from the registry and a notification invokes
it zero times. -/
theorem attach_idempotent_set_semantics {T : Type} [DecidableEq T]
    (h : Hub T) (l : Nat) (v : T) (hnd : h.listeners.Nodup) :
    (h.attachListener l).attachListener l = h.attachListener l ∧
    (((h.attachListener l).attachListener l).notifyListener v).count
        (HubEvent.listenerCall l v) = 1 ∧
    l ∉ (((h.attachListener l).attachListener l).removeListener l).listeners ∧
    ((((h.attachListener l).attachListener l).removeListener l).notifyListener v).count
        (HubEvent.listenerCall l v) = 0 := by
  have hadd : (h.attachListener l).attachListener l = h.attachListener l := by
    simp [Hub.attachListener, jsSetAdd_idem]
  have hnd1 : (h.attachListener l).listeners.Nodup := jsSetAdd_nodup hnd l
  have hmem : l ∈ (h.attachListener l).listeners := jsSetAdd_self_mem h.listeners l
  have hgone : l ∉ ((h.attachListener l).removeListener l).listeners := by
    simpa [Hub.removeListener, jsSetDelete] using hnd1.not_mem_erase
  refine ⟨hadd, ?_, ?_, ?_⟩
  · rw [hadd, count_listenerCall_notify]
    exact List.count_eq_one_of_mem hnd1 hmem
  · rw [hadd]
    exact hgone
  · rw [hadd, count_listenerCall_notify]
    exact List.count_eq_zero.mpr hgone

/-- A freshly created hub with listener `0` attached, for the idempotence
scenario. -/
def hubC7 : Hub Nat := (createHub (InitArg.value 0)).attachListener 0

/-- C7 witness: the idempotence properties evaluated on a concrete hub,
listener `3` and value `5`. -/
theorem attach_idempotent_set_semantics_witness :
    (hubC7.attachListener 3).attachListener 3 = hubC7.attachListener 3 ∧
    (((hubC7.attachListener 3).attachListener 3).notifyListener 5).count
        (HubEvent.listenerCall 3 5) = 1 ∧
    3 ∉ (((hubC7.attachListener 3).attachListener 3).removeListener 3).listeners ∧
    ((((hubC7.attachListener 3).attachListener 3).removeListener 3).notifyListener 5).count
        (HubEvent.listenerCall 3 5) = 0 :=
  attach_idempotent_set_semantics hubC7 3 5 (by decide)

/-- C8: within one synchronous source update, the emitted trace is exactly
the source's attached state listeners invoked with the resolved new value,
followed by the work of the change callback — here the computed hub's
recompute-and-notify, whose listener calls therefore complete, depth-first,
inside the same call, before it returns its (total) result; for any hub,
`notifyListener` emits all state-listener calls before all change-callback
calls; and each attached source listener is invoked exactly once per round. -/
theorem update_notifies_synchronously_depth_first {T : Type} [DecidableEq T]
    (p : ComputedPair T) (u : NewStateArg T) (h : Hub T) (v : T)
    (hnd : p.src.listeners.Nodup) :
    (p.updateState u).2 =
      p.src.listeners.map (fun l =>
        HubEvent.listenerCall l (resolveNewState u p.src.getCurrentState)) ++
      (p.comp.listeners.map (fun l =>
        HubEvent.listenerCall l (p.computeAction p.src.getCurrentState)) ++
       p.comp.onChangeListeners.map (fun c => HubEvent.changeCall c)) ∧
    h.notifyListener v =
      h.listeners.map (fun l => HubEvent.listenerCall l v) ++
      h.onChangeListeners.map (fun c => HubEvent.changeCall c) ∧
    ∀ l ∈ p.src.listeners,
      (p.src.listeners.map (fun i =>
        HubEvent.listenerCall i (resolveNewState u p.src.getCurrentState))).count
        (HubEvent.listenerCall l (resolveNewState u p.src.getCurrentState)) = 1 := by
  refine ⟨?_, rfl, ?_⟩
  · simp [ComputedPair.updateState, ComputedPair.handleSourceChange,
      Hub.notifyListener]
  · intro l hl
    rw [List.count_map_of_injective _ _
      (listenerCall_injective (resolveNewState u p.src.getCurrentState))]
    exact List.count_eq_one_of_mem hnd hl

/-- A source hub with value `2` and listeners `0`, `1` attached. -/
def srcC8 : Hub Nat := ((createHub (InitArg.value 2)).attachListener 0).attachListener 1

/-- A computed pair over `srcC8` with compute action `s + 10` and listener
`5` attached to the computed hub. -/
def pairC8 : ComputedPair Nat :=
  let p := createComputedHub srcC8 (fun s => s + 10)
  { p with comp := p.comp.attachListener 5 }

/-- C8 witness: the full depth-first trace of one concrete source update —
both source listeners receive `3`, then the computed hub's listener receives
the recomputed value, all within the one call. -/
theorem update_notifies_synchronously_depth_first_witness :
    (pairC8.updateState (NewStateArg.value 3)).2 =
      [HubEvent.listenerCall 0 3, HubEvent.listenerCall 1 3,
       HubEvent.listenerCall 5 12] := by
  have h := update_notifies_synchronously_depth_first pairC8
    (NewStateArg.value 3) (createHub (InitArg.value 0)) 7 (by decide)
  rw [h.1]
  rfl

/-- Helper: the exact snapshot sequence one singly-registered listener
receives from a non-overlapping `reAction` call, on each settlement path. -/
theorem reAction_observedBy {R E : Type} (ph : PromiseHub R E)
    (act : R → Except E R) (l : Nat) (hc : ph.listeners.count l = 1) :
    observedBy l (ph.reAction act).2.1 =
      match act ph.promiseState.currentState with
      | Except.ok r =>
          [⟨ph.promiseState.currentState, true, ph.promiseState.error⟩,
           ⟨r, true, ph.promiseState.error⟩,
           ⟨r, false, ph.promiseState.error⟩]
      | Except.error e =>
          [⟨ph.promiseState.currentState, true, ph.promiseState.error⟩,
           ⟨ph.promiseState.currentState, true, some e⟩,
           ⟨ph.promiseState.currentState, false, some e⟩] := by
  cases hact : act ph.promiseState.currentState with
  | ok r =>
      simp [PromiseHub.reAction, PromiseHub.setPendingState,
        PromiseHub.setCurrentState, PromiseHub.getCurrentState, hact,
        observedBy_append, observedBy_notifyAll, hc]
  | error e =>
      simp [PromiseHub.reAction, PromiseHub.setPendingState,
        PromiseHub.setErrorState, PromiseHub.getCurrentState, hact,
        observedBy_append, observedBy_notifyAll, hc]

/-- C3: for a single non-overlapping `reAction()` call, an attached listener
observes exactly three distinct notifications, in order: first the
`pending=true` snapshot with value and error unchanged; then, on the success
path, the value change (error retained) or, on the failure path, the error
change (value retained), still with `pending=true`; finally exactly one
`pending=false` snapshot — `pending` is `true` in every snapshot before the
settling one. -/
theorem promiseHub_transition_ordering {R E : Type} (ph : PromiseHub R E)
    (act : R → Except E R) (l : Nat)
    (hnd : ph.listeners.Nodup) (hl : l ∈ ph.listeners) :
    (observedBy l (ph.reAction act).2.1 =
      match act ph.promiseState.currentState with
      | Except.ok r =>
          [⟨ph.promiseState.currentState, true, ph.promiseState.error⟩,
           ⟨r, true, ph.promiseState.error⟩,
           ⟨r, false, ph.promiseState.error⟩]
      | Except.error e =>
          [⟨ph.promiseState.currentState, true, ph.promiseState.error⟩,
           ⟨ph.promiseState.currentState, true, some e⟩,
           ⟨ph.promiseState.currentState, false, some e⟩]) ∧
    (observedBy l (ph.reAction act).2.1).map (fun st => st.pending) =
      [true, true, false] ∧
    (observedBy l (ph.reAction act).2.1).countP (fun st => !st.pending) = 1 := by
  have hc : ph.listeners.count l = 1 := List.count_eq_one_of_mem hnd hl
  have hobs := reAction_observedBy ph act l hc
  refine ⟨hobs, ?_, ?_⟩ <;>
    cases hact : act ph.promiseState.currentState <;>
      simp [hact] at hobs <;> simp [hobs, List.countP_cons]

/-- A promise hub with initial value `0` and listener `0` attached. -/
def phC3 : PromiseHub Nat Nat :=
  (createPromiseHub (InitArg.value 0)).attachListener 0

/-- An always-succeeding producer: resolves with the previous value plus 1. -/
def actC3 : Nat → Except Nat Nat := fun prev => Except.ok (prev + 1)

/-- C3 witness: on a concrete hub and succeeding action, the listener
observes the pending snapshot, then the value change, then the single
pending-false snapshot. -/
theorem promiseHub_transition_ordering_witness :
    observedBy 0 (phC3.reAction actC3).2.1 =
      [⟨0, true, none⟩, ⟨1, true, none⟩, ⟨1, false, none⟩] ∧
    (observedBy 0 (phC3.reAction actC3).2.1).map (fun st => st.pending) =
      [true, true, false] := by
  have h := promiseHub_transition_ordering phC3 actC3 0 (by decide) (by decide)
  refine ⟨?_, h.2.1⟩
  rw [h.1]
  rfl

/-- C4: when the producer rejects with error `e`, `reAction()` resolves —
with `undefined` (`none`), never propagating the exception — and afterwards
`getErrorState()` returns the caught error and `getPendingState()` returns
`false`. -/
theorem reAction_error_containment {R E : Type} (ph : PromiseHub R E)
    (act : R → Except E R) (e : E)
    (hact : act ph.promiseState.currentState = Except.error e) :
    (ph.reAction act).2.2 = none ∧
    (ph.reAction act).1.getErrorState = some e ∧
    (ph.reAction act).1.getPendingState = false := by
  refine ⟨?_, ?_, ?_⟩ <;>
    simp [PromiseHub.reAction, PromiseHub.setPendingState,
      PromiseHub.setCurrentState, PromiseHub.setErrorState,
      PromiseHub.getCurrentState, PromiseHub.getErrorState,
      PromiseHub.getPendingState, hact]

/-- A promise hub with initial value `0` and no listeners (scenario 3). -/
def phC4 : PromiseHub Nat Nat := createPromiseHub (InitArg.value 0)

/-- An always-rejecting producer (the "boom" thrower, with error `42`). -/
def actC4 : Nat → Except Nat Nat := fun _ => Except.error 42

/-- C4 witness: scenario 3 evaluated — `reAction` returns `none`, the error
state holds `42`, pending is back to `false`. -/
theorem reAction_error_containment_witness :
    (phC4.reAction actC4).2.2 = none ∧
    (phC4.reAction actC4).1.getErrorState = some 42 ∧
    (phC4.reAction actC4).1.getPendingState = false :=
  reAction_error_containment phC4 actC4 42 rfl

/-- C9: when the hub's error state already holds `e0`, a subsequent
`reAction` never clears it before or at settlement: on the success path
every notified snapshot (the `pending=true` transition, the value change,
and the `pending=false` transition) still carries `error = e0` and the final
error state is still `e0`; the error field changes only when a new failure
stores the newly caught error — and even then the `pending=true` snapshot
still carries `e0`. -/
theorem reAction_preserves_prior_error {R E : Type} (ph : PromiseHub R E)
    (act : R → Except E R) (l : Nat) (e0 : E)
    (herr : ph.getErrorState = some e0) (hnd : ph.listeners.Nodup)
    (hl : l ∈ ph.listeners) :
    (∀ r, act ph.promiseState.currentState = Except.ok r →
      (∀ st ∈ observedBy l (ph.reAction act).2.1, st.error = some e0) ∧
      (ph.reAction act).1.getErrorState = some e0) ∧
    (∀ e, act ph.promiseState.currentState = Except.error e →
      (observedBy l (ph.reAction act).2.1).map (fun st => st.error) =
        [some e0, some e, some e] ∧
      (ph.reAction act).1.getErrorState = some e) := by
  have hc : ph.listeners.count l = 1 := List.count_eq_one_of_mem hnd hl
  have hobs := reAction_observedBy ph act l hc
  have herr0 : ph.promiseState.error = some e0 := herr
  constructor
  · intro r hact
    simp [hact] at hobs
    constructor
    · intro st hst
      rw [hobs] at hst
      simp [herr0] at hst
      rcases hst with h1 | h1 | h1 <;> simp [h1, herr0]
    · simp [PromiseHub.reAction, PromiseHub.setPendingState,
        PromiseHub.setCurrentState, PromiseHub.getCurrentState,
        PromiseHub.getErrorState, hact, herr0]
  · intro e hact
    simp [hact] at hobs
    constructor
    · simp [hobs, herr0]
    · simp [PromiseHub.reAction, PromiseHub.setPendingState,
        PromiseHub.setErrorState, PromiseHub.getCurrentState,
        PromiseHub.getErrorState, hact]

/-- A promise hub whose error state holds `5`, reached by running a failing
`reAction` on a fresh hub with listener `0` attached. -/
def phC9 : PromiseHub Nat Nat :=
  (((createPromiseHub (InitArg.value 0) : PromiseHub Nat Nat).attachListener 0).reAction
    (fun _ => Except.error 5)).1

/-- A succeeding producer used for the retry after the stored failure. -/
def actC9 : Nat → Except Nat Nat := fun prev => Except.ok (prev + 7)

/-- C9 witness: with stored error `5`, a successful retry leaves every
notified snapshot and the final error state at `some 5`. -/
theorem reAction_preserves_prior_error_witness :
    (∀ st ∈ observedBy 0 (phC9.reAction actC9).2.1, st.error = some 5) ∧
    (phC9.reAction actC9).1.getErrorState = some 5 :=
  (reAction_preserves_prior_error phC9 actC9 0 5 rfl (by decide) (by decide)).1
    7 rfl

end HooksSpec
